import Mathlib

/-
Verification of the RTMP publish/play adapters
(src/gst/rtmp2/gstrtmp2sink.c and src/gst/rtmp2/gstrtmp2src.c).

The definitions below are a shallow embedding of the C source.  Machine
integers are modelled as Nat with explicit reduction modulo 2^64 (guint64)
or 2^32 (guint32) at the places where the C arithmetic can overflow.
-/

namespace Rtmp2

/-- Value of G_MAXINT32, i.e. 2^31 - 1. -/
def gMaxInt32 : Nat := 2147483647

/-- Value of G_MAXUINT32, i.e. 2^32 - 1. -/
def gMaxUInt32 : Nat := 4294967295

/-- One past the largest guint32 value: 2^32. -/
def M32 : Nat := 4294967296

/-- One past the largest guint64 value: 2^64.  All guint64 arithmetic in the
source is performed modulo this constant. -/
def U64 : Nat := 18446744073709551616

/-- The timestamp-fixup state of GstRtmp2Sink: the 64-bit fields
`base_ts` and `last_ts` (gstrtmp2sink.c lines 79-80), both guint64. -/
structure TsState where
  base_ts : Nat
  last_ts : Nat
deriving Repr, DecidableEq

/-- Embedding of the rollover-correction block of `buffer_to_message`
(gstrtmp2sink.c lines 496-517).  `timestamp` is the 32-bit FLV tag
timestamp already widened to guint64.  The two C statements
`base_ts += G_MAXUINT32; base_ts += 1` compose to a single wrapping
addition of 2^32, and the two statements
`base_ts -= G_MAXUINT32; base_ts -= 1` compose to a single wrapping
subtraction of 2^32, written below as wrapping additions of the
corresponding 2^64-complements.  In the final else-branch of the C code
(`base_ts == 0`), `timestamp` is forced to zero before `base_ts` is
added to it.  Returns the new state and the corrected timestamp
(which the C code also stores into `last_ts`). -/
def tsFixup (st : TsState) (timestamp : Nat) : TsState × Nat :=
  if (timestamp + st.base_ts + gMaxInt32) % U64 < st.last_ts then
    (⟨(st.base_ts + gMaxUInt32 + 1) % U64,
      (timestamp + (st.base_ts + gMaxUInt32 + 1) % U64) % U64⟩,
     (timestamp + (st.base_ts + gMaxUInt32 + 1) % U64) % U64)
  else if (st.last_ts + gMaxInt32) % U64 < (timestamp + st.base_ts) % U64 then
    if 0 < st.base_ts then
      (⟨(st.base_ts + (U64 - gMaxUInt32) + (U64 - 1)) % U64,
        (timestamp + (st.base_ts + (U64 - gMaxUInt32) + (U64 - 1)) % U64) % U64⟩,
       (timestamp + (st.base_ts + (U64 - gMaxUInt32) + (U64 - 1)) % U64) % U64)
    else
      (⟨st.base_ts, (0 + st.base_ts) % U64⟩, (0 + st.base_ts) % U64)
  else
    (⟨st.base_ts, (timestamp + st.base_ts) % U64⟩, (timestamp + st.base_ts) % U64)

/-- The rollover update as claim C1 words it, for comparison with
`tsFixup`: a forward jump of the corrected timestamp past the previously
output timestamp by more than half the 32-bit range increases the base by
2^32 (wraparound); a backward jump by more than half the range decreases
the base by 2^32, clamped to zero with the output forced to zero when the
base would go negative.  This definition follows the words of the
specification, not the source. -/
def tsFixupClaimed (st : TsState) (timestamp : Nat) : TsState × Nat :=
  if st.last_ts + gMaxInt32 < timestamp + st.base_ts then
    (⟨st.base_ts + M32, timestamp + st.base_ts + M32⟩,
     timestamp + st.base_ts + M32)
  else if timestamp + st.base_ts + gMaxInt32 < st.last_ts then
    if M32 ≤ st.base_ts then
      (⟨st.base_ts - M32, timestamp + st.base_ts - M32⟩,
       timestamp + st.base_ts - M32)
    else
      (⟨0, 0⟩, 0)
  else
    (⟨st.base_ts, timestamp + st.base_ts⟩, timestamp + st.base_ts)

/-- Feeding a list of raw 32-bit tag timestamps through the rollover
correction, returning the list of corrected 64-bit timestamps
(the per-buffer behaviour of `buffer_to_message` restricted to the
timestamp state). -/
def tsFixupRun (st : TsState) : List Nat → List Nat
  | [] => []
  | t :: ts => (tsFixup st t).2 :: tsFixupRun (tsFixup st t).1 ts

/-- Raw 32-bit timestamps generated from a start value by a list of
increments, each sum reduced modulo 2^32 exactly as a 32-bit FLV
timestamp wraps. -/
def deltasToTs (t : Nat) : List Nat → List Nat
  | [] => []
  | d :: ds => ((t + d) % M32) :: deltasToTs ((t + d) % M32) ds

/-- Invariant tying the fixup state to the raw 32-bit timestamp `t` that
produced `last_ts`: either the last corrected output was `base_ts + t`,
or the correction was forced to zero (which in the source can only happen
with a zero base and a raw timestamp above half the 32-bit range). -/
def TsInv (st : TsState) (t : Nat) : Prop :=
  t < M32 ∧
  (st.last_ts = st.base_ts + t ∨
   (st.base_ts = 0 ∧ st.last_ts = 0 ∧ gMaxInt32 < t))

/-- AMF value model for the command-channel arguments (the self-describing
object notation of spec section 4.4).  Numbers carry an opaque Nat payload;
the publish/play handlers in the sources never branch on a numeric value. -/
inductive AmfNode where
  | null : AmfNode
  | number : Nat → AmfNode
  | string : String → AmfNode
  | object : List (String × AmfNode) → AmfNode

/-- Type tags returned by gst_amf_node_get_type.  `invalid` is
GST_AMF_TYPE_INVALID, the default used by publish_done when the reply has
no second argument. -/
inductive AmfType where
  | invalid | null | number | string | object
deriving DecidableEq, Repr

/-- Type tag of an AMF node (gst_amf_node_get_type). -/
def amfGetType : AmfNode → AmfType
  | AmfNode.null => AmfType.null
  | AmfNode.number _ => AmfType.number
  | AmfNode.string _ => AmfType.string
  | AmfNode.object _ => AmfType.object

/-- Modelled from the spec: gst_amf_node_get_field (rtmp/amf.c is not under
src/) looks a named field up in a command object and returns NULL when the
field is absent or the node is not an object, per the self-describing
object encoding of spec section 4.4. -/
def amfLookupField : List (String × AmfNode) → String → Option AmfNode
  | [], _ => none
  | (k, v) :: rest, n => if k = n then some v else amfLookupField rest n

/-- Field lookup on an AMF node; `none` models a NULL return. -/
def amfGetField : AmfNode → String → Option AmfNode
  | AmfNode.object fields, n => amfLookupField fields n
  | _, _ => none

/-- Modelled from the spec: gst_amf_node_peek_string (rtmp/amf.c is not
under src/) returns the string payload of a string node and NULL for any
other node type. -/
def amfPeekString : AmfNode → Option String
  | AmfNode.string s => some s
  | _ => none

/-- Status-code field name looked up by publish_done. -/
def statusCodeField : String := "code"

/-- Status code for a successful publish. -/
def statusPublishStart : String := "NetStream.Publish.Start"

/-- Status code for a stream that already exists. -/
def statusPublishBadName : String := "NetStream.Publish.BadName"

/-- Status code for a denied publish. -/
def statusPublishDenied : String := "NetStream.Publish.Denied"

/-- Possible resolutions of the publish GTask in publish_done
(gstrtmp2sink.c lines 936-992).  `success` is g_task_return_pointer with
the live connection; the error constructors are the
g_task_return_new_error calls with G_IO_ERROR_EXISTS,
G_IO_ERROR_PERMISSION_DENIED and G_IO_ERROR_FAILED respectively;
`nullDeref` marks the undefined behaviour of calling g_str_equal with a
NULL status code. -/
inductive PublishOutcome where
  | cancelled | success | errorExists | errorDenied | errorFailed | nullDeref
deriving DecidableEq, Repr

/-- Embedding of publish_done (gstrtmp2sink.c lines 936-992).
`cancelled` models g_task_return_error_if_cancelled firing; `args` is the
onStatus argument array (`none` models a NULL array).  A reply of fewer
than one argument fails; with exactly one argument the optional-args type
stays GST_AMF_TYPE_INVALID and the switch falls to the default failure
branch.  When the second argument is an object, the code field is fetched
and its string payload compared; a NULL code (absent field or non-string
node) flows into g_str_equal, which dereferences it. -/
def publish_done (cancelled : Bool) (args : Option (List AmfNode)) :
    PublishOutcome :=
  if cancelled then PublishOutcome.cancelled
  else
    match args with
    | none => PublishOutcome.errorFailed
    | some [] => PublishOutcome.errorFailed
    | some [_] => PublishOutcome.errorFailed
    | some (_ :: optionalArgs :: _) =>
      match amfGetType optionalArgs with
      | AmfType.object =>
        match (amfGetField optionalArgs statusCodeField).bind amfPeekString with
        | none => PublishOutcome.nullDeref
        | some code =>
          if code = statusPublishStart then PublishOutcome.success
          else if code = statusPublishBadName then PublishOutcome.errorExists
          else if code = statusPublishDenied then PublishOutcome.errorDenied
          else PublishOutcome.errorFailed
      | _ => PublishOutcome.errorFailed

/-- The RTMP metadata attached to an inbound message buffer
(GstRtmpMeta): message-stream id, message type and payload size. -/
structure RtmpMeta where
  mstream : Nat
  mtype : Nat
  msize : Nat
deriving DecidableEq, Repr

/-- Modelled from the spec: the audio message type tag (the type constants
live in rtmp/rtmpmessage.h, not under src/; the tags are the standard RTMP
ones named in spec section 3). -/
def GST_RTMP_MESSAGE_TYPE_AUDIO : Nat := 8

/-- Modelled from the spec: the video message type tag. -/
def GST_RTMP_MESSAGE_TYPE_VIDEO : Nat := 9

/-- Modelled from the spec: the AMF0 data message type tag. -/
def GST_RTMP_MESSAGE_TYPE_DATA_AMF0 : Nat := 18

/-- Filtering decisions of got_message (gstrtmp2src.c lines 686-742),
in source order: a message whose message-stream id differs from the play
stream id is dropped first; then non-media types are dropped; then
messages smaller than the per-type minimum size (video 6, audio 2,
data 1) are dropped; everything else is delivered.  All drop paths are
silent early returns (debug logging only, no error). -/
inductive GotAction where
  | dropMismatch | dropType | dropTooSmall | deliver
deriving DecidableEq, Repr

/-- Decision taken by got_message for one inbound message, before any
state is touched. -/
def got_message_action (stream_id : Nat) (meta : RtmpMeta) : GotAction :=
  if meta.mstream ≠ stream_id then GotAction.dropMismatch
  else if meta.mtype = GST_RTMP_MESSAGE_TYPE_VIDEO then
    (if meta.msize < 6 then GotAction.dropTooSmall else GotAction.deliver)
  else if meta.mtype = GST_RTMP_MESSAGE_TYPE_AUDIO then
    (if meta.msize < 2 then GotAction.dropTooSmall else GotAction.deliver)
  else if meta.mtype = GST_RTMP_MESSAGE_TYPE_DATA_AMF0 then
    (if meta.msize < 1 then GotAction.dropTooSmall else GotAction.deliver)
  else GotAction.dropType

/-- State transition of got_message on the single pending-message slot
(self->message), returning the new slot and whether the message was
handed to the host.  The cond-wait loop for an occupied slot is
abstracted: when the element is still running the consumer eventually
empties the slot and the message is stored; when it is shutting down the
loop exits and the message is dropped.  Every drop path leaves the slot
untouched. -/
def got_message_step (stream_id : Nat) (slot : Option RtmpMeta)
    (running : Bool) (meta : RtmpMeta) : Option RtmpMeta × Bool :=
  match got_message_action stream_id meta with
  | GotAction.deliver =>
    match slot with
    | none => (some meta, true)
    | some s => if running then (some meta, true) else (some s, false)
  | _ => (slot, false)

/-- GLib error model: a domain quark and an integer code. -/
structure GError where
  domain : Nat
  code : Nat
deriving DecidableEq, Repr

/-- The G_IO_ERROR domain quark (opaque; only identity matters). -/
def G_IO_ERROR : Nat := 1

/-- GLib G_IO_ERROR_EXISTS. -/
def G_IO_ERROR_EXISTS : Nat := 2

/-- GLib G_IO_ERROR_PERMISSION_DENIED. -/
def G_IO_ERROR_PERMISSION_DENIED : Nat := 14

/-- GLib G_IO_ERROR_CANCELLED. -/
def G_IO_ERROR_CANCELLED : Nat := 19

/-- GLib G_IO_ERROR_CONNECTION_REFUSED. -/
def G_IO_ERROR_CONNECTION_REFUSED : Nat := 39

/-- g_error_matches: false for a NULL error, otherwise domain and code
must both match. -/
def g_error_matches (e : Option GError) (domain code : Nat) : Bool :=
  match e with
  | none => false
  | some err => decide (err.domain = domain) && decide (err.code = code)

/-- Element-error categories raised via GST_ELEMENT_ERROR by the two
connect-failure reporters. -/
inductive ElementError where
  | notAuthorized | openRead | failed
deriving DecidableEq, Repr

/-- Error reporting of the sink's connect_task_done (gstrtmp2sink.c lines
813-828): which element error, if any, is posted for a failed connect
task.  A cancelled error posts nothing. -/
def connect_task_done_report (error : Option GError) : Option ElementError :=
  if g_error_matches error G_IO_ERROR G_IO_ERROR_PERMISSION_DENIED then
    some ElementError.notAuthorized
  else if g_error_matches error G_IO_ERROR G_IO_ERROR_CONNECTION_REFUSED then
    some ElementError.openRead
  else if ¬ (g_error_matches error G_IO_ERROR G_IO_ERROR_CANCELLED = true) then
    some ElementError.failed
  else
    none

/-- Error reporting of the source's send_connect_error (gstrtmp2src.c
lines 770-801).  A NULL error posts a generic failure; a cancelled error
posts nothing (debug log only); otherwise the error is mapped by code. -/
def send_connect_error (error : Option GError) : Option ElementError :=
  match error with
  | none => some ElementError.failed
  | some e =>
    if g_error_matches (some e) G_IO_ERROR G_IO_ERROR_CANCELLED then none
    else if g_error_matches (some e) G_IO_ERROR G_IO_ERROR_PERMISSION_DENIED then
      some ElementError.notAuthorized
    else if g_error_matches (some e) G_IO_ERROR G_IO_ERROR_CONNECTION_REFUSED then
      some ElementError.openRead
    else some ElementError.failed

/-- Modelled from the spec: when the caller's cancellation token is
signaled, every pending connect/publish/play step resolves with the
cancellation outcome (spec sections 4.6 and 7).  In GLib terms
(g_task_return_error_if_cancelled inside rtmp/rtmpclient.c and the
handlers, the client code not being under src/) that outcome is the
G_IO_ERROR_CANCELLED error. -/
def cancelledResolution : GError :=
  { domain := G_IO_ERROR, code := G_IO_ERROR_CANCELLED }

/-- The three signature bytes compared by `memcmp (info.data, "FLV", 3)`. -/
def flvSig : List Nat := [70, 76, 86]

/-- The 16-byte setDataFrame AMF header prepended to outbound data
messages (gstrtmp2sink.c lines 550-553). -/
def setDataFrameHeader : List Nat :=
  [2, 0, 13, 64, 115, 101, 116, 68, 97, 116, 97, 70, 114, 97, 109, 101]

/-- An outbound RTMP message as built by buffer_to_message: type tag,
chunk-stream id, message-stream id, DTS in nanoseconds and payload
bytes. -/
structure OutMsg where
  mtype : Nat
  cstream : Nat
  mstream : Nat
  dts : Nat
  payload : List Nat
deriving DecidableEq, Repr

/-- The 32-bit FLV tag timestamp read from bytes 4..7 of the tag:
a 24-bit big-endian value with byte 7 as the extension byte shifted into
bits 24..31 (gstrtmp2sink.c lines 493-494). -/
def readTagTimestamp (data : List Nat) : Nat :=
  data.getD 4 0 * 65536 + data.getD 5 0 * 256 + data.getD 6 0 +
    data.getD 7 0 * 16777216

/-- Chunk-stream id chosen per tag type (gstrtmp2sink.c lines 522-538);
`none` is the unknown-tag-type failure. -/
def cstreamOfType (t : Nat) : Option Nat :=
  if t = GST_RTMP_MESSAGE_TYPE_DATA_AMF0 then some 4
  else if t = GST_RTMP_MESSAGE_TYPE_AUDIO then some 5
  else if t = GST_RTMP_MESSAGE_TYPE_VIDEO then some 6
  else none

/-- Embedding of buffer_to_message (gstrtmp2sink.c lines 454-563) on the
buffer's bytes.  Returns the updated timestamp state together with
`none` for a FALSE return (failure), `some none` for a TRUE return with
no outbound message (a stripped FLV container header), and
`some (some m)` for a produced message.  Note that on an unknown tag
type the C code fails only after having already updated the timestamp
state.  Buffer mapping is assumed to succeed (a map failure is an
out-of-memory condition of the host runtime). -/
def buffer_to_message (st : TsState) (data : List Nat) :
    TsState × Option (Option OutMsg) :=
  if 4 ≤ data.length ∧ data.take 3 = flvSig then (st, some none)
  else if data.length < 15 then (st, none)
  else
    match cstreamOfType (data.getD 0 0) with
    | none => ((tsFixup st (readTagTimestamp data)).1, none)
    | some cs =>
      ((tsFixup st (readTagTimestamp data)).1, some (some
        { mtype := data.getD 0 0
          cstream := cs
          mstream := 1
          dts := (tsFixup st (readTagTimestamp data)).2 * 1000000
          payload :=
            (if data.getD 0 0 = GST_RTMP_MESSAGE_TYPE_DATA_AMF0 then
              setDataFrameHeader else []) ++
            (data.drop 11).take (data.length - 15) }))

/-- GstFlowReturn values used by the sink render path. -/
inductive FlowReturn where
  | ok | flushing | error | eos
deriving DecidableEq, Repr

/-- Embedding of gst_rtmp2_sink_render (gstrtmp2sink.c lines 640-664)
composed with send_message (lines 605-638).  `headers` is the list of
stored streamheader messages, `headerFlag` the GST_BUFFER_FLAG_HEADER bit
of the incoming buffer; `flushing` and `connected` summarise the
conditions send_message finds after its waits.  Returns the new timestamp
state, the flow return, and the messages enqueued on the connection. -/
def gst_rtmp2_sink_render (headers : List OutMsg) (flushing connected : Bool)
    (st : TsState) (headerFlag : Bool) (data : List Nat) :
    TsState × FlowReturn × List OutMsg :=
  if headerFlag ∧ 0 < headers.length then (st, FlowReturn.ok, [])
  else
    match buffer_to_message st data with
    | (st2, none) => (st2, FlowReturn.error, [])
    | (st2, some none) => (st2, FlowReturn.ok, [])
    | (st2, some (some m)) =>
      if flushing then (st2, FlowReturn.flushing, [])
      else if ¬ connected then (st2, FlowReturn.error, [])
      else (st2, FlowReturn.ok, headers ++ [m])

/-- The 13-byte synthetic FLV container header prepended once on the play
path (gstrtmp2src.c lines 502-505). -/
def flv_header_data : List Nat := [70, 76, 86, 1, 1, 0, 0, 0, 9, 0, 0, 0, 0]

/-- Big-endian 24-bit byte serialisation (GST_WRITE_UINT24_BE). -/
def u24be (n : Nat) : List Nat := [n / 65536 % 256, n / 256 % 256, n % 256]

/-- Big-endian 32-bit byte serialisation (GST_WRITE_UINT32_BE). -/
def u32be (n : Nat) : List Nat :=
  [n / 16777216 % 256, n / 65536 % 256, n / 256 % 256, n % 256]

/-- An inbound message as seen by gst_rtmp2_src_create: its RTMP meta,
its DTS (`none` models GST_CLOCK_TIME_NONE) and its payload bytes. -/
structure SrcMsg where
  meta : RtmpMeta
  dts : Option Nat
  payload : List Nat
deriving DecidableEq, Repr

/-- The per-element state gst_rtmp2_src_create reads and writes:
`sent_header` (set FALSE by gst_rtmp2_src_start, line 412) and the
last seen DTS (`none` models GST_CLOCK_TIME_NONE, line 413). -/
structure SrcState where
  sent_header : Bool
  src_last_ts : Option Nat
deriving DecidableEq, Repr

/-- The FLV tag built around one message by gst_rtmp2_src_create
(gstrtmp2src.c lines 539-571): an 11-byte tag header (type byte, 24-bit
size, 24-bit timestamp plus extension byte, 24-bit zero stream id), the
payload, and a 4-byte size footer.  The 32-bit tag timestamp is the DTS
divided by GST_MSECOND truncated to guint32, or zero when the DTS is
invalid. -/
def srcTagBody (m : SrcMsg) : List Nat :=
  [m.meta.mtype % 256] ++ u24be m.meta.msize ++
    u24be ((match m.dts with | some ts => ts / 1000000 % M32 | none => 0)) ++
    [(match m.dts with | some ts => ts / 1000000 % M32 | none => 0) /
      16777216 % 256] ++
    u24be 0 ++ m.payload ++ u32be (m.meta.msize + 11)

/-- Embedding of the buffer-building tail of gst_rtmp2_src_create
(gstrtmp2src.c lines 539-584): updates the last-DTS bookkeeping, builds
the FLV tag, and prepends the 13-byte synthetic FLV container header
exactly when `sent_header` is still false, setting it afterwards. -/
def gst_rtmp2_src_create (st : SrcState) (m : SrcMsg) :
    SrcState × List Nat :=
  if st.sent_header then
    (⟨st.sent_header,
      match m.dts with | some ts => some ts | none => st.src_last_ts⟩,
     srcTagBody m)
  else
    (⟨true, match m.dts with | some ts => some ts | none => st.src_last_ts⟩,
     flv_header_data ++ srcTagBody m)

/-- Outputs of a run of gst_rtmp2_src_create over a list of inbound
messages. -/
def src_create_run (st : SrcState) : List SrcMsg → List (List Nat)
  | [] => []
  | m :: ms =>
    (gst_rtmp2_src_create st m).2 ::
      src_create_run (gst_rtmp2_src_create st m).1 ms

theorem tsFixup_last_eq (st : TsState) (t : Nat) :
    (tsFixup st t).1.last_ts = (tsFixup st t).2 := by
  unfold tsFixup
  split_ifs <;> rfl

theorem tsFixup_step (st : TsState) (t d : Nat) (hinv : TsInv st t)
    (hd : d ≤ gMaxInt32) (hb : st.base_ts + 2 * M32 ≤ U64) :
    st.last_ts ≤ (tsFixup st ((t + d) % M32)).2 ∧
    TsInv (tsFixup st ((t + d) % M32)).1 ((t + d) % M32) ∧
    (tsFixup st ((t + d) % M32)).1.base_ts ≤ st.base_ts + M32 := by
  obtain ⟨ht, hcase⟩ := hinv
  unfold tsFixup TsInv
  simp only [gMaxInt32, gMaxUInt32, M32, U64] at *
  split_ifs with h1 h2 h3 <;> simp only [] <;> omega

theorem tsFixup_first (t : Nat) (ht : t < M32) :
    TsInv (tsFixup ⟨0, 0⟩ t).1 t ∧ (tsFixup ⟨0, 0⟩ t).1.base_ts = 0 := by
  unfold tsFixup TsInv
  simp only [gMaxInt32, gMaxUInt32, M32, U64] at *
  split_ifs with h1 h2 h3 <;> simp only [true_and, and_true] <;> omega

theorem tsFixupRun_chain (ds : List Nat) : ∀ (st : TsState) (t : Nat),
    TsInv st t → (∀ d ∈ ds, d ≤ gMaxInt32) →
    st.base_ts + (ds.length + 2) * M32 ≤ U64 →
    List.Chain (fun a b => a ≤ b) st.last_ts (tsFixupRun st (deltasToTs t ds)) := by
  induction ds with
  | nil =>
    intro st t _ _ _
    simp [deltasToTs, tsFixupRun]
  | cons d ds ih =>
    intro st t hinv hd hb
    have hd0 : d ≤ gMaxInt32 := hd d (List.mem_cons_self d ds)
    have hb0 : st.base_ts + 2 * M32 ≤ U64 := by
      have : (2 : Nat) * M32 ≤ (ds.length + 1 + 2) * M32 :=
        Nat.mul_le_mul_right M32 (by omega)
      simp only [List.length_cons] at hb
      omega
    obtain ⟨hle, hinv2, hgrow⟩ := tsFixup_step st t d hinv hd0 hb0
    simp only [deltasToTs, tsFixupRun]
    refine List.Chain.cons hle ?_
    rw [← tsFixup_last_eq]
    refine ih (tsFixup st ((t + d) % M32)).1 ((t + d) % M32) hinv2
      (fun x hx => hd x (List.mem_cons_of_mem d hx)) ?_
    have : (ds.length + 2) * M32 + M32 = (ds.length + 1 + 2) * M32 := by ring
    simp only [List.length_cons] at hb
    omega

/-- Claim C1 (counterexample): the rollover correction does not behave as
the claim states.  At state `base_ts = 0, last_ts = 0` and incoming
timestamp 2^31, the corrected timestamp jumps forward past the previous
output by more than half the 32-bit range; the claim prescribes
`base_ts += 2^32` (wraparound), but the source instead treats a forward
jump as clock regression and, since the base is already zero, forces the
output timestamp to zero and leaves the base at zero. -/
theorem c1_counterexample :
    tsFixup ⟨0, 0⟩ 2147483648 = (⟨0, 0⟩, 0) ∧
    tsFixupClaimed ⟨0, 0⟩ 2147483648 =
      (⟨4294967296, 6442450944⟩, 6442450944) ∧
    tsFixup ⟨0, 0⟩ 2147483648 ≠ tsFixupClaimed ⟨0, 0⟩ 2147483648 := by
  refine ⟨by decide, by decide, by decide⟩

/-- Claim C1 (amended): the publish path maintains a 64-bit base offset
added to every incoming 32-bit FLV timestamp; a BACKWARD jump of the
corrected timestamp short of the previously output timestamp by more than
half the 32-bit range increases the base by 2^32 (wraparound), while a
FORWARD jump past the previous output by more than half the range
decreases the base by 2^32, clamped to zero, with the output timestamp
forced to zero when the base would go negative.  (Directions are swapped
relative to the claim; the thresholds and adjustments are otherwise as
claimed.)  Hypotheses bound the state so that the 64-bit arithmetic does
not wrap: the raw timestamp is 32-bit and the last output is within 2^32
of the base (an invariant of all reachable states). -/
theorem c1_rollover_step (st : TsState) (t : Nat)
    (ht : t < M32) (hl : st.last_ts ≤ st.base_ts + M32)
    (hb : st.base_ts + 2 * M32 ≤ U64) :
    (t + st.base_ts + gMaxInt32 < st.last_ts →
      tsFixup st t =
        (⟨st.base_ts + M32, t + st.base_ts + M32⟩, t + st.base_ts + M32)) ∧
    (st.last_ts + gMaxInt32 < t + st.base_ts → M32 ≤ st.base_ts →
      tsFixup st t =
        (⟨st.base_ts - M32, t + st.base_ts - M32⟩, t + st.base_ts - M32)) ∧
    (st.last_ts + gMaxInt32 < t + st.base_ts → st.base_ts = 0 →
      tsFixup st t = (⟨0, 0⟩, 0)) ∧
    (st.last_ts ≤ t + st.base_ts + gMaxInt32 →
     t + st.base_ts ≤ st.last_ts + gMaxInt32 →
      tsFixup st t = (⟨st.base_ts, t + st.base_ts⟩, t + st.base_ts)) := by
  unfold tsFixup
  simp only [gMaxInt32, gMaxUInt32, M32, U64] at *
  refine ⟨?_, ?_, ?_, ?_⟩ <;> intro h <;>
    split_ifs with h1 h2 h3 <;>
    simp only [Prod.mk.injEq, TsState.mk.injEq, true_and, and_true] <;> omega

/-- Claim C1 (witness): a concrete backward jump.  With base zero and
previous output 2^32 - 1, an incoming raw timestamp of 0 falls short of
the previous output by more than half the 32-bit range, so the base is
increased by 2^32 and the corrected output is 2^32. -/
theorem c1_rollover_step_witness :
    (0 : Nat) < M32 ∧ (4294967295 : Nat) ≤ 0 + M32 ∧
    (0 : Nat) + 2 * M32 ≤ U64 ∧
    (0 + 0 + gMaxInt32 < 4294967295 ∧
     tsFixup ⟨0, 4294967295⟩ 0 = (⟨0 + M32, 0 + 0 + M32⟩, 0 + 0 + M32)) := by
  refine ⟨by decide, by decide, by decide, ?_, ?_⟩
  · decide
  · exact (c1_rollover_step ⟨0, 4294967295⟩ 0 (by decide) (by decide)
      (by decide)).1 (by decide)

/-- Claim C2 (counterexample): the corrected sequence is not monotone for
every raw sequence that increases and then wraps around.  The raw
sequence 10, 2^31 + 10, 5 strictly increases and then wraps past 2^32
(5 = (2^31 + 10 + (2^31 - 5)) mod 2^32); fed from base 0 and last
timestamp 0, the source outputs 10, 0, 5, which decreases at the second
step because the in-range forward jump of more than half the range forces
the timestamp to zero. -/
theorem c2_counterexample :
    (10 : Nat) < 2147483658 ∧ (2147483658 : Nat) < M32 ∧
    (2147483658 + 2147483643) % M32 = 5 ∧ M32 ≤ 2147483658 + 2147483643 ∧
    tsFixupRun ⟨0, 0⟩ [10, 2147483658, 5] = [10, 0, 5] ∧
    ¬ List.Chain' (fun a b : Nat => a ≤ b)
        (tsFixupRun ⟨0, 0⟩ [10, 2147483658, 5]) := by
  have hrun : tsFixupRun ⟨0, 0⟩ [10, 2147483658, 5] = [10, 0, 5] := by decide
  refine ⟨by decide, by decide, by decide, by decide, hrun, ?_⟩
  rw [hrun]
  intro hchain
  have h10 : (10 : Nat) ≤ 0 := (List.chain'_cons.mp hchain).1
  omega

/-- Claim C2 (amended): for every starting 32-bit timestamp and every
sequence of buffers whose raw 32-bit timestamps advance by at most
2^31 - 1 per step (wrapping modulo 2^32) — in particular every sequence
that increases in steps below half the range and then wraps around —
feeding the timestamps through the rollover correction from base offset
zero and last timestamp zero yields a monotonically non-decreasing
corrected sequence.  (The source's 64-bit counters cannot themselves wrap
within any physically meaningful run; the sequence-length bound keeps the
embedded guint64 arithmetic below 2^64.) -/
theorem c2_rollover_monotone (t0 : Nat) (ds : List Nat)
    (h0 : t0 < M32) (hd : ∀ d ∈ ds, d ≤ gMaxInt32)
    (hlen : ds.length ≤ 2147483648) :
    List.Chain' (fun a b => a ≤ b)
      (tsFixupRun ⟨0, 0⟩ (t0 :: deltasToTs t0 ds)) := by
  obtain ⟨hinv, hbase⟩ := tsFixup_first t0 h0
  show List.Chain (fun a b => a ≤ b) (tsFixup ⟨0, 0⟩ t0).2
    (tsFixupRun (tsFixup ⟨0, 0⟩ t0).1 (deltasToTs t0 ds))
  rw [← tsFixup_last_eq]
  refine tsFixupRun_chain ds (tsFixup ⟨0, 0⟩ t0).1 t0 hinv hd ?_
  rw [hbase]
  have h1 : ds.length + 2 ≤ 2147483650 := by omega
  have h2 : (ds.length + 2) * M32 ≤ 2147483650 * M32 :=
    Nat.mul_le_mul_right M32 h1
  simp only [M32, U64] at *
  omega

/-- Claim C2 (witness): a concrete run with bounded increments, including
a wraparound step, is monotone. -/
theorem c2_rollover_monotone_witness :
    (4294967290 : Nat) < M32 ∧ (∀ d ∈ [10, 20], d ≤ gMaxInt32) ∧
    ([10, 20] : List Nat).length ≤ 2147483648 ∧
    List.Chain' (fun a b => a ≤ b)
      (tsFixupRun ⟨0, 0⟩ (4294967290 :: deltasToTs 4294967290 [10, 20])) := by
  refine ⟨by decide, by decide, by decide,
    c2_rollover_monotone 4294967290 [10, 20] (by decide) (by decide) (by decide)⟩

/-- Claim C3: for a publish onStatus reply whose second argument is an AMF
object carrying a string code field, the outcome is determined by the
code: NetStream.Publish.Start resolves with the live connection,
NetStream.Publish.BadName with an already-exists error,
NetStream.Publish.Denied with a permission error, any other code with a
generic failure; a reply whose second argument is not an AMF object, or
is missing, resolves with a generic failure. -/
theorem c3_publish_status_mapping :
    (∀ (a0 : AmfNode) (fields : List (String × AmfNode))
       (rest : List AmfNode) (s : String),
       amfGetField (AmfNode.object fields) statusCodeField =
         some (AmfNode.string s) →
       publish_done false (some (a0 :: AmfNode.object fields :: rest)) =
         (if s = statusPublishStart then PublishOutcome.success
          else if s = statusPublishBadName then PublishOutcome.errorExists
          else if s = statusPublishDenied then PublishOutcome.errorDenied
          else PublishOutcome.errorFailed)) ∧
    (∀ (a0 b : AmfNode) (rest : List AmfNode), amfGetType b ≠ AmfType.object →
       publish_done false (some (a0 :: b :: rest)) =
         PublishOutcome.errorFailed) ∧
    (∀ a0 : AmfNode,
       publish_done false (some [a0]) = PublishOutcome.errorFailed) ∧
    publish_done false none = PublishOutcome.errorFailed := by
  refine ⟨?_, ?_, ?_, rfl⟩
  · intro a0 fields rest s h
    simp [publish_done, amfGetType, h, amfPeekString]
  · intro a0 b rest h
    cases b <;> simp_all [publish_done, amfGetType]
  · intro a0
    rfl

/-- Claim C3 (witness): a BadName reply resolves with the already-exists
error. -/
theorem c3_publish_status_mapping_witness :
    publish_done false (some [AmfNode.null,
        AmfNode.object [(statusCodeField, AmfNode.string statusPublishBadName)]]) =
      PublishOutcome.errorExists := by
  have h := c3_publish_status_mapping.1 AmfNode.null
    [(statusCodeField, AmfNode.string statusPublishBadName)] []
    statusPublishBadName (by simp [amfGetField, amfLookupField])
  simpa [statusPublishStart, statusPublishBadName, statusPublishDenied]
    using h

/-- Claim C4 (code bug): when the publish onStatus reply's second argument
is an AMF object with no code field, publish_done passes the resulting
NULL status code to g_str_equal, dereferencing it (undefined behaviour),
instead of resolving the operation with the generic CommandFailed-style
error required by the specification. -/
theorem c4_null_code_crash :
    publish_done false (some [AmfNode.null, AmfNode.object []]) =
      PublishOutcome.nullDeref ∧
    publish_done false
        (some [AmfNode.null,
          AmfNode.object [(statusCodeField, AmfNode.number 3)]]) =
      PublishOutcome.nullDeref := by
  exact ⟨rfl, rfl⟩

/-- Claim C6: got_message hands an inbound message to the host only if its
message-stream id equals the play stream id; every mismatched message is
dropped before any state is touched, leaving the pending-message slot
unchanged, with no error path. -/
theorem c6_stream_filter :
    (∀ (sid : Nat) (slot : Option RtmpMeta) (running : Bool)
       (meta : RtmpMeta), meta.mstream ≠ sid →
       got_message_step sid slot running meta = (slot, false)) ∧
    (∀ (sid : Nat) (slot : Option RtmpMeta) (running : Bool)
       (meta : RtmpMeta) (out : Option RtmpMeta),
       got_message_step sid slot running meta = (out, true) →
       meta.mstream = sid) := by
  constructor
  · intro sid slot running meta h
    simp [got_message_step, got_message_action, h]
  · intro sid slot running meta out h
    by_contra hne
    simp [got_message_step, got_message_action, hne] at h

/-- Claim C6 (witness): a video message on stream 2 is dropped without
touching the empty slot when the play stream id is 1. -/
theorem c6_stream_filter_witness :
    (⟨2, 9, 100⟩ : RtmpMeta).mstream ≠ 1 ∧
    got_message_step 1 none true ⟨2, 9, 100⟩ = (none, false) :=
  ⟨by decide, c6_stream_filter.1 1 none true ⟨2, 9, 100⟩ (by decide)⟩

/-- Claim C7: when a connect/publish/play sequence terminates with the
cancellation outcome (the G_IO_ERROR_CANCELLED error produced once the
caller's token fires, including mid-handshake), neither the sink's
connect_task_done nor the source's send_connect_error posts any element
error: cancellation is never converted into a transport or generic
error. -/
theorem c7_cancel_not_error (e : GError)
    (h : g_error_matches (some e) G_IO_ERROR G_IO_ERROR_CANCELLED = true) :
    connect_task_done_report (some e) = none ∧
    send_connect_error (some e) = none := by
  simp only [g_error_matches, Bool.and_eq_true, decide_eq_true_eq] at h
  obtain ⟨hd, hc⟩ := h
  constructor
  · simp [connect_task_done_report, g_error_matches, hd, hc, G_IO_ERROR,
      G_IO_ERROR_PERMISSION_DENIED, G_IO_ERROR_CONNECTION_REFUSED,
      G_IO_ERROR_CANCELLED]
  · simp [send_connect_error, g_error_matches, hd, hc, G_IO_ERROR,
      G_IO_ERROR_PERMISSION_DENIED, G_IO_ERROR_CONNECTION_REFUSED,
      G_IO_ERROR_CANCELLED]

/-- Claim C7 (witness): the canonical cancellation resolution is reported
by neither element. -/
theorem c7_cancel_not_error_witness :
    g_error_matches (some cancelledResolution) G_IO_ERROR
      G_IO_ERROR_CANCELLED = true ∧
    connect_task_done_report (some cancelledResolution) = none ∧
    send_connect_error (some cancelledResolution) = none :=
  ⟨by decide, c7_cancel_not_error cancelledResolution (by decide)⟩

/-- Claim C8: every publish-path input buffer of at least 4 bytes that
begins with the FLV container signature is recognised as the leading
container header: the conversion succeeds without producing any outbound
message and without touching the timestamp state, and render consumes the
buffer with GST_FLOW_OK, enqueueing nothing. -/
theorem c8_flv_header_stripped (st : TsState) (data : List Nat)
    (hlen : 4 ≤ data.length) (hsig : data.take 3 = flvSig) :
    buffer_to_message st data = (st, some none) ∧
    ∀ (headers : List OutMsg) (flushing connected : Bool),
      gst_rtmp2_sink_render headers flushing connected st false data =
        (st, FlowReturn.ok, []) := by
  have hbm : buffer_to_message st data = (st, some none) := by
    unfold buffer_to_message
    rw [if_pos ⟨hlen, hsig⟩]
  refine ⟨hbm, ?_⟩
  intro headers flushing connected
  simp [gst_rtmp2_sink_render, hbm]

/-- Claim C8 (witness): a concrete 4-byte FLV header is stripped. -/
theorem c8_flv_header_stripped_witness :
    4 ≤ ([70, 76, 86, 1] : List Nat).length ∧
    ([70, 76, 86, 1] : List Nat).take 3 = flvSig ∧
    buffer_to_message ⟨0, 0⟩ [70, 76, 86, 1] = (⟨0, 0⟩, some none) :=
  ⟨by decide, by decide,
    (c8_flv_header_stripped ⟨0, 0⟩ [70, 76, 86, 1] (by decide) (by decide)).1⟩

theorem src_create_run_sent (ms : List SrcMsg) : ∀ st : SrcState,
    st.sent_header = true → src_create_run st ms = ms.map srcTagBody := by
  induction ms with
  | nil => intro st _; rfl
  | cons m ms ih =>
    intro st h
    have hst : gst_rtmp2_src_create st m =
        (⟨st.sent_header,
          match m.dts with | some ts => some ts | none => st.src_last_ts⟩,
         srcTagBody m) := by
      unfold gst_rtmp2_src_create
      rw [if_pos h]
    simp only [src_create_run, hst, List.map_cons]
    exact congrArg (List.cons (srcTagBody m)) (ih _ h)

/-- Claim C9: on the play path the 13-byte synthetic FLV container header
is prepended to the first buffer created after start (the state set by
gst_rtmp2_src_start has sent_header false), and only to that buffer:
every subsequent buffer is exactly the bare FLV tag body, because the
sent-header flag is set on the first call and never cleared. -/
theorem c9_first_buffer_header (m : SrcMsg) (ms : List SrcMsg) :
    src_create_run ⟨false, none⟩ (m :: ms) =
      (flv_header_data ++ srcTagBody m) :: ms.map srcTagBody ∧
    flv_header_data.length = 13 := by
  refine ⟨?_, rfl⟩
  have h1 : gst_rtmp2_src_create ⟨false, none⟩ m =
      (⟨true, match m.dts with | some ts => some ts | none => none⟩,
       flv_header_data ++ srcTagBody m) := by
    unfold gst_rtmp2_src_create
    rw [if_neg (by simp)]
  simp only [src_create_run, h1]
  exact congrArg (List.cons (flv_header_data ++ srcTagBody m))
    (src_create_run_sent ms _ rfl)

/-- Claim C10 (counterexample): the claim fails as stated.  A 1-byte
buffer that does not begin with the FLV signature but carries the
GST_BUFFER_FLAG_HEADER flag while streamheaders are stored is dropped by
render with GST_FLOW_OK, not an error.  Moreover the outbound payload of
an accepted data/AMF0 message is not exactly the bytes between header and
footer: a 16-byte setDataFrame header is prepended to them. -/
theorem c10_counterexample :
    (¬ (4 ≤ ([0] : List Nat).length ∧ ([0] : List Nat).take 3 = flvSig)) ∧
    ([0] : List Nat).length < 15 ∧
    gst_rtmp2_sink_render [⟨8, 5, 1, 0, []⟩] false true ⟨0, 0⟩ true [0] =
      (⟨0, 0⟩, FlowReturn.ok, []) ∧
    (buffer_to_message ⟨0, 0⟩
        [18, 0, 0, 1, 0, 0, 0, 0, 0, 0, 0, 99, 0, 0, 0, 16]).2 =
      some (some ⟨18, 4, 1, 0, setDataFrameHeader ++ [99]⟩) ∧
    setDataFrameHeader ++ [99] ≠ [99] := by
  refine ⟨by decide, by decide, by decide, by decide, by decide⟩

/-- Claim C10 (amended): every publish-path input buffer that does not
begin with the FLV signature, is shorter than 15 bytes, and is not
dropped as a redundant header buffer (header flag set while streamheaders
are stored) makes the conversion fail and render return an error with
nothing enqueued; for every accepted buffer the bytes taken from the
input into the outbound payload are exactly those between the 11-byte FLV
tag header and the 4-byte size footer (data/AMF0 messages additionally
carry a fixed 16-byte setDataFrame prefix before them), so the payload
slice always lies within the buffer's bounds. -/
theorem c10_payload_bounds :
    (∀ (headers : List OutMsg) (flushing connected : Bool) (st : TsState)
       (headerFlag : Bool) (data : List Nat),
       ¬ (4 ≤ data.length ∧ data.take 3 = flvSig) → data.length < 15 →
       (headerFlag = false ∨ headers = []) →
       buffer_to_message st data = (st, none) ∧
       gst_rtmp2_sink_render headers flushing connected st headerFlag data =
         (st, FlowReturn.error, [])) ∧
    (∀ (st : TsState) (data : List Nat) (st2 : TsState) (m : OutMsg),
       buffer_to_message st data = (st2, some (some m)) →
       15 ≤ data.length ∧
       (m.payload = (data.drop 11).take (data.length - 15) ∨
        m.payload =
          setDataFrameHeader ++ (data.drop 11).take (data.length - 15)) ∧
       11 + ((data.drop 11).take (data.length - 15)).length + 4 =
         data.length) := by
  constructor
  · intro headers flushing connected st headerFlag data h1 h2 h3
    have hbm : buffer_to_message st data = (st, none) := by
      unfold buffer_to_message
      rw [if_neg h1, if_pos h2]
    refine ⟨hbm, ?_⟩
    rcases h3 with rfl | rfl <;> simp [gst_rtmp2_sink_render, hbm]
  · intro st data st2 m h
    unfold buffer_to_message at h
    by_cases h1 : 4 ≤ data.length ∧ data.take 3 = flvSig
    · rw [if_pos h1] at h
      exact absurd h (by simp)
    rw [if_neg h1] at h
    by_cases h2 : data.length < 15
    · rw [if_pos h2] at h
      exact absurd h (by simp)
    rw [if_neg h2] at h
    cases hcs : cstreamOfType (data.getD 0 0) with
    | none =>
      rw [hcs] at h
      exact absurd h (by simp)
    | some cs =>
      rw [hcs] at h
      simp only [Prod.mk.injEq, Option.some.injEq] at h
      obtain ⟨hst, hm⟩ := h
      refine ⟨by omega, ?_, ?_⟩
      · by_cases ht : data.getD 0 0 = GST_RTMP_MESSAGE_TYPE_DATA_AMF0
        · right
          rw [← hm]
          dsimp only
          rw [if_pos ht]
        · left
          rw [← hm]
          dsimp only
          rw [if_neg ht, List.nil_append]
      · simp only [List.length_take, List.length_drop]
        omega

/-- Claim C10 (witness): a concrete 3-byte non-FLV buffer fails the
conversion and render returns an error with nothing enqueued. -/
theorem c10_payload_bounds_witness :
    (¬ (4 ≤ ([1, 2, 3] : List Nat).length ∧
        ([1, 2, 3] : List Nat).take 3 = flvSig)) ∧
    ([1, 2, 3] : List Nat).length < 15 ∧
    buffer_to_message ⟨0, 0⟩ [1, 2, 3] = (⟨0, 0⟩, none) ∧
    gst_rtmp2_sink_render [] false true ⟨0, 0⟩ false [1, 2, 3] =
      (⟨0, 0⟩, FlowReturn.error, []) :=
  ⟨by decide, by decide,
    (c10_payload_bounds.1 [] false true ⟨0, 0⟩ false [1, 2, 3]
      (by decide) (by decide) (Or.inl rfl)).1,
    (c10_payload_bounds.1 [] false true ⟨0, 0⟩ false [1, 2, 3]
      (by decide) (by decide) (Or.inl rfl)).2⟩

end Rtmp2
